import Mathlib

/-!
Verification of the Streamlit CRO analysis app (`src/app.py`).

The embedding below translates the algorithmic parts of `app.py` into Lean:
text is modelled as `List Char`, Python real arithmetic as exact rationals,
Python `int()` truncation as `pyInt`, and the regex patterns of the score
extractor as explicit left-to-right scanners (none of the patterns used by
the code requires backtracking, so leftmost-match scanning is exact).
-/

set_option autoImplicit false

/-! ### Text utilities (Python `in`, `str.split`, `str.strip`, `str.replace`) -/

/-- Python substring containment `pat in s` on character lists. -/
def containsSub (pat : List Char) : List Char → Bool
  | [] => pat.isEmpty
  | c :: rest => pat.isPrefixOf (c :: rest) || containsSub pat rest

/-- Python `s.split(sep)` for a non-empty separator: split on non-overlapping
leftmost occurrences, structurally recursive on a fuel argument so that the
kernel can evaluate it on concrete inputs.  For an empty separator the scan
never fires and the whole string is one chunk. -/
def splitFuel (sep : List Char) : Nat → List Char → List (List Char)
  | _, [] => [[]]
  | 0, c :: rest => [c :: rest]
  | fuel + 1, c :: rest =>
    if sep.isPrefixOf (c :: rest) && !sep.isEmpty then
      [] :: splitFuel sep fuel (rest.drop (sep.length - 1))
    else
      (c :: (splitFuel sep fuel rest).headD []) :: (splitFuel sep fuel rest).tail

/-- Python `s.split(sep)`: the fuel `s.length` always suffices. -/
def splitOnL (sep s : List Char) : List (List Char) :=
  splitFuel sep s.length s

theorem splitFuel_congr (sep : List Char) :
    ∀ f₁ f₂ s, s.length ≤ f₁ → s.length ≤ f₂ → splitFuel sep f₁ s = splitFuel sep f₂ s := by
  intro f₁
  induction f₁ with
  | zero =>
    intro f₂ s h1 _
    have hnil : s = [] := List.eq_nil_of_length_eq_zero (Nat.le_zero.mp h1)
    subst hnil
    cases f₂ <;> rfl
  | succ f ih =>
    intro f₂ s h1 h2
    match s, f₂ with
    | [], g => cases g <;> rfl
    | c :: rest, 0 => simp at h2
    | c :: rest, g + 1 =>
      rw [splitFuel, splitFuel]
      by_cases h : (sep.isPrefixOf (c :: rest) && !sep.isEmpty) = true
      · rw [if_pos h, if_pos h]
        have hlen : (rest.drop (sep.length - 1)).length ≤ f := by
          simp only [List.length_drop]
          simp only [List.length_cons] at h1
          omega
        have hlen2 : (rest.drop (sep.length - 1)).length ≤ g := by
          simp only [List.length_drop]
          simp only [List.length_cons] at h2
          omega
        rw [ih g _ hlen hlen2]
      · rw [if_neg h, if_neg h]
        have hlen : rest.length ≤ f := by simp only [List.length_cons] at h1; omega
        have hlen2 : rest.length ≤ g := by simp only [List.length_cons] at h2; omega
        rw [ih g rest hlen hlen2]

/-- One-step unfolding of `splitOnL` on a non-empty string. -/
theorem splitOnL_cons (sep : List Char) (c : Char) (rest : List Char) :
    splitOnL sep (c :: rest) =
      if sep.isPrefixOf (c :: rest) && !sep.isEmpty then
        [] :: splitOnL sep (rest.drop (sep.length - 1))
      else
        (c :: (splitOnL sep rest).headD []) :: (splitOnL sep rest).tail := by
  show splitFuel sep (rest.length + 1) (c :: rest) = _
  rw [splitFuel]
  by_cases h : (sep.isPrefixOf (c :: rest) && !sep.isEmpty) = true
  · rw [if_pos h, if_pos h]
    rw [splitFuel_congr sep rest.length (rest.drop (sep.length - 1)).length _
      (by simp only [List.length_drop]; omega) le_rfl]
    rfl
  · rw [if_neg h, if_neg h]
    rfl

/-- Number of non-overlapping leftmost occurrences of `pat` (the occurrences
consumed by `splitOnL`). -/
def countSub (pat : List Char) : List Char → Nat
  | [] => 0
  | c :: rest =>
    if pat.isPrefixOf (c :: rest) && !pat.isEmpty then
      countSub pat (rest.drop (pat.length - 1)) + 1
    else
      countSub pat rest
termination_by s => s.length
decreasing_by
  · simp only [List.length_drop, List.length_cons]; omega
  · simp only [List.length_cons]; omega

/-- Python `sep.join(chunks)`. -/
def joinWith (sep : List Char) : List (List Char) → List Char
  | [] => []
  | [x] => x
  | x :: y :: xs => x ++ sep ++ joinWith sep (y :: xs)

/-- Whitespace stripped by Python `str.strip()` (ASCII portion). -/
def isPyWs (c : Char) : Bool :=
  c = ' ' || c = '\t' || c = '\n' || c = '\r' || c = Char.ofNat 11 || c = Char.ofNat 12

/-- Python `str.strip()`. -/
def stripL (s : List Char) : List Char :=
  ((s.dropWhile isPyWs).reverse.dropWhile isPyWs).reverse

/-- Python `s.replace(pat, '')`: drop every non-overlapping occurrence. -/
def removeSub (pat : List Char) (s : List Char) : List Char :=
  joinWith [] (splitOnL pat s)

theorem isPrefixOf_append (p r : List Char) : p.isPrefixOf (p ++ r) = true := by
  induction p with
  | nil => simp [List.isPrefixOf]
  | cons a as ih => simp [List.isPrefixOf, ih]

theorem drop_length_append (p r : List Char) : (p ++ r).drop p.length = r := by
  induction p with
  | nil => rfl
  | cons a as ih => simp [ih]

theorem splitOnL_ne_nil (sep s : List Char) : splitOnL sep s ≠ [] := by
  cases s with
  | nil => simp [splitOnL, splitFuel]
  | cons c rest =>
    rw [splitOnL_cons]
    split <;> simp

/-- If the separator never occurs, `splitOnL` returns the single original chunk. -/
theorem splitOnL_of_not_contains (sep : List Char) :
    ∀ s : List Char, containsSub sep s = false → splitOnL sep s = [s] := by
  intro s
  induction s with
  | nil => intro _; rfl
  | cons c rest ih =>
    intro h
    rw [containsSub] at h
    simp only [Bool.or_eq_false_iff] at h
    rw [splitOnL_cons]
    have hcond : (sep.isPrefixOf (c :: rest) && !sep.isEmpty) = false := by
      simp [h.1]
    rw [hcond]
    simp only [Bool.false_eq_true, if_false]
    rw [ih h.2]
    rfl

/-- `splitOnL` produces one chunk more than the number of separator occurrences. -/
theorem splitOnL_length (sep : List Char) :
    ∀ s : List Char, (splitOnL sep s).length = countSub sep s + 1 := by
  have main : ∀ n : Nat, ∀ s : List Char, s.length ≤ n →
      (splitOnL sep s).length = countSub sep s + 1 := by
    intro n
    induction n with
    | zero =>
      intro s hs
      have hnil : s = [] := List.eq_nil_of_length_eq_zero (Nat.le_zero.mp hs)
      subst hnil
      rw [countSub]
      rfl
    | succ n ih =>
      intro s hs
      match s with
      | [] => rw [countSub]; rfl
      | c :: rest =>
        rw [splitOnL_cons, countSub]
        by_cases h : (sep.isPrefixOf (c :: rest) && !sep.isEmpty) = true
        · rw [if_pos h, if_pos h]
          have hrec := ih (rest.drop (sep.length - 1)) (by
            simp only [List.length_drop]
            simp only [List.length_cons] at hs
            omega)
          simp only [List.length_cons, hrec]
        · rw [if_neg h, if_neg h]
          have hrec := ih rest (by simp only [List.length_cons] at hs; omega)
          have hne := splitOnL_ne_nil sep rest
          cases he : splitOnL sep rest with
          | nil => exact absurd he hne
          | cons h0 t0 =>
            rw [he] at hrec
            simp only [List.headD, List.tail, List.length_cons] at hrec ⊢
            omega
  intro s
  exact main s.length s le_rfl

/-- Splitting a string that starts with the (non-empty) separator yields an
empty first chunk followed by the split of the remainder. -/
theorem splitOnL_append_self (sep r : List Char) (hsep : sep ≠ []) :
    splitOnL sep (sep ++ r) = [] :: splitOnL sep r := by
  match sep, hsep with
  | a :: as, _ =>
    rw [show (a :: as) ++ r = a :: (as ++ r) from rfl, splitOnL_cons]
    have hpre : (a :: as).isPrefixOf (a :: (as ++ r)) = true := isPrefixOf_append _ _
    have hcond : ((a :: as).isPrefixOf (a :: (as ++ r)) && !(a :: as).isEmpty) = true := by
      simp [hpre, List.isEmpty]
    rw [if_pos hcond]
    have hdrop : (as ++ r).drop ((a :: as).length - 1) = r := by
      simp [drop_length_append as r]
    rw [hdrop]

/-- Counting occurrences after prepending the separator itself adds one. -/
theorem countSub_append_self (sep r : List Char) (hsep : sep ≠ []) :
    countSub sep (sep ++ r) = countSub sep r + 1 := by
  match sep, hsep with
  | a :: as, _ =>
    rw [show (a :: as) ++ r = a :: (as ++ r) from rfl, countSub]
    have hpre : (a :: as).isPrefixOf (a :: (as ++ r)) = true := isPrefixOf_append _ _
    have hcond : ((a :: as).isPrefixOf (a :: (as ++ r)) && !(a :: as).isEmpty) = true := by
      simp [hpre, List.isEmpty]
    rw [if_pos hcond]
    have hdrop : (as ++ r).drop ((a :: as).length - 1) = r := by
      simp [drop_length_append as r]
    rw [hdrop]

/-! ### Data model of the extracted signal bundle (`fetch_website_content` result)

Only the fields read by `calculate_health_score` (`app.py` lines 24-142) are
modelled.  Counts are naturals; the two bundle-level form scores are
rationals, as in the code they are produced by division. -/

structure Headings where
  h1 : Nat
  h2 : Nat
  h3 : Nat
deriving DecidableEq

structure ContentData where
  headings : Headings
  paragraphs : Nat
  lists : Nat
deriving DecidableEq

structure CtasData where
  total : Nat
  primary : Nat
  above_fold : Nat
deriving DecidableEq

structure FormsData where
  count : Nat
  total_validation_score : ℚ
  total_accessibility_score : ℚ
deriving DecidableEq

structure AccessData where
  alt_texts : Nat
  aria_labels : Nat
  aria_describedby : Nat
  role_attributes : Nat
  lang_attribute : Bool
  form_labels : Nat
deriving DecidableEq

structure TechnicalData where
  accessibility : AccessData
deriving DecidableEq

structure SiteData where
  content : ContentData
  ctas : CtasData
  forms : FormsData
  technical : TechnicalData
deriving DecidableEq

/-! ### Deterministic scorer (`calculate_health_score`, lines 24-142) -/

/-- Python `int(q)` for a rational: truncation toward zero. -/
def pyInt (q : ℚ) : Int :=
  q.num.tdiv (q.den : Int)

/-- Heading hierarchy points (lines 37-43): 5 for exactly one h1, 5 for any
h2, 5 for any h3. -/
def heading_hierarchy_points (d : SiteData) : Nat :=
  (if d.content.headings.h1 = 1 then 5 else 0) +
  (if d.content.headings.h2 > 0 then 5 else 0) +
  (if d.content.headings.h3 > 0 then 5 else 0)

/-- Heading-to-paragraph ratio points (lines 45-52), guarded by
`paragraphs > 0`. -/
def heading_ratio_points (d : SiteData) : Nat :=
  if d.content.paragraphs > 0 then
    (if (1 : ℚ)/5 ≤ ((d.content.headings.h1 + d.content.headings.h2 + d.content.headings.h3 : Nat) : ℚ) / (d.content.paragraphs : ℚ) ∧
        ((d.content.headings.h1 + d.content.headings.h2 + d.content.headings.h3 : Nat) : ℚ) / (d.content.paragraphs : ℚ) ≤ (2 : ℚ)/5 then 10
     else if (1 : ℚ)/10 ≤ ((d.content.headings.h1 + d.content.headings.h2 + d.content.headings.h3 : Nat) : ℚ) / (d.content.paragraphs : ℚ) ∧
        ((d.content.headings.h1 + d.content.headings.h2 + d.content.headings.h3 : Nat) : ℚ) / (d.content.paragraphs : ℚ) < (1 : ℚ)/5 then 5
     else 0)
  else 0

/-- List structure points (lines 54-60): the ratio divides by
`max 1 paragraphs`, so it is always well defined. -/
def list_structure_points (d : SiteData) : Nat :=
  if d.content.lists > 0 then
    (if (1 : ℚ)/10 ≤ (d.content.lists : ℚ) / ((Nat.max 1 d.content.paragraphs : Nat) : ℚ) ∧
        (d.content.lists : ℚ) / ((Nat.max 1 d.content.paragraphs : Nat) : ℚ) ≤ (3 : ℚ)/10 then 10
     else if (d.content.lists : ℚ) / ((Nat.max 1 d.content.paragraphs : Nat) : ℚ) > 0 then 5
     else 0)
  else 0

/-- Content structure sub-score (lines 33-62). -/
def content_score (d : SiteData) : Nat :=
  heading_hierarchy_points d + heading_ratio_points d + list_structure_points d

/-- CTA analysis points (lines 67-83), guarded by `ctas.total > 0`; the
above-fold branch truncates `ratio * 30` with Python `int`. -/
def cta_points (d : SiteData) : ℚ :=
  if d.ctas.total > 0 then
    (if (1 : ℚ)/10 ≤ (d.ctas.primary : ℚ) / (d.ctas.total : ℚ) ∧
        (d.ctas.primary : ℚ) / (d.ctas.total : ℚ) ≤ (3 : ℚ)/10 then 10
     else if (d.ctas.primary : ℚ) / (d.ctas.total : ℚ) > 0 then 5
     else 0) +
    (if d.ctas.above_fold > 0 then
      (if (d.ctas.above_fold : ℚ) / (d.ctas.total : ℚ) ≥ (3 : ℚ)/10 then 10
       else ((pyInt ((d.ctas.above_fold : ℚ) / (d.ctas.total : ℚ) * 30) : Int) : ℚ))
     else 0)
  else 0

/-- Form analysis points (lines 85-94), guarded by `forms.count > 0`. -/
def form_points (d : SiteData) : ℚ :=
  if d.forms.count > 0 then
    d.forms.total_validation_score * (15 : ℚ)/2 + d.forms.total_accessibility_score * (15 : ℚ)/2
  else 0

/-- Engagement sub-score (lines 64-96). -/
def engagement_score (d : SiteData) : ℚ :=
  cta_points d + form_points d

/-- Accessibility sub-score (lines 98-123). -/
def accessibility_points (d : SiteData) : Nat :=
  (if d.technical.accessibility.alt_texts > 0 then 10 else 0) +
  ((if d.technical.accessibility.aria_labels > 0 then 3 else 0) +
   (if d.technical.accessibility.aria_describedby > 0 then 3 else 0) +
   (if d.technical.accessibility.role_attributes > 0 then 2 else 0) +
   (if d.technical.accessibility.lang_attribute then 2 else 0)) +
  (if d.forms.count > 0 then Nat.min 10 (d.technical.accessibility.form_labels * 2) else 0)

/-- The three category sub-scores returned alongside the final score. -/
structure Scores where
  content : Nat
  engagement : ℚ
  accessibility : Nat
deriving DecidableEq

/-- `calculate_health_score` (lines 24-142): weighted sum of the three
category scores, truncated to an integer and clamped to [0, 100]. -/
def calculate_health_score (site_data : SiteData) : Int × Scores :=
  (max 0 (min 100 (pyInt
      ((content_score site_data : ℚ) * ((35 : ℚ)/100) +
       engagement_score site_data * ((35 : ℚ)/100) +
       (accessibility_points site_data : ℚ) * ((30 : ℚ)/100)))),
   ⟨content_score site_data, engagement_score site_data, accessibility_points site_data⟩)

/-- A bundle with zero everywhere: zero forms, zero CTAs, zero paragraphs. -/
def zeroBundle : SiteData :=
  { content := { headings := ⟨0, 0, 0⟩, paragraphs := 0, lists := 0 }
    ctas := ⟨0, 0, 0⟩
    forms := ⟨0, 0, 0⟩
    technical := { accessibility := ⟨0, 0, 0, 0, false, 0⟩ } }

/-! ### Per-field form scores (`fetch_website_content`, lines 203-262) -/

/-- Validation attributes checked per field (line 223-231): 7 booleans. -/
structure FieldValidations where
  required : Bool
  pattern : Bool
  minlength : Bool
  maxlength : Bool
  min : Bool
  max : Bool
  step : Bool
deriving DecidableEq

/-- Accessibility attributes checked per field (lines 233-240): 5 booleans. -/
structure FieldAccessibility where
  has_label : Bool
  has_placeholder : Bool
  has_aria_label : Bool
  has_aria_describedby : Bool
  has_error_message : Bool
deriving DecidableEq

structure FieldAnalysis where
  validations : FieldValidations
  accessibility : FieldAccessibility
deriving DecidableEq

/-- Per-field `validation_score` (line 246): the raw count of attributes
present. -/
def field_validation_score (v : FieldValidations) : Nat :=
  (if v.required then 1 else 0) + (if v.pattern then 1 else 0) +
  (if v.minlength then 1 else 0) + (if v.maxlength then 1 else 0) +
  (if v.min then 1 else 0) + (if v.max then 1 else 0) + (if v.step then 1 else 0)

/-- Per-field `accessibility_score` (line 247): the raw count of attributes
present. -/
def field_accessibility_score (a : FieldAccessibility) : Nat :=
  (if a.has_label then 1 else 0) + (if a.has_placeholder then 1 else 0) +
  (if a.has_aria_label then 1 else 0) + (if a.has_aria_describedby then 1 else 0) +
  (if a.has_error_message then 1 else 0)

/-- Form-level validation score (line 251): sum of per-field counts divided
by `len(field_analysis) * 3`, or 0 when the form has no fields. -/
def form_validation_score (fa : List FieldAnalysis) : ℚ :=
  if fa.isEmpty then 0
  else ((fa.map fun f => field_validation_score f.validations).sum : ℚ) / ((fa.length : ℚ) * 3)

/-- Form-level accessibility score (line 252): sum of per-field counts
divided by `len(field_analysis) * 3`, or 0 when the form has no fields. -/
def form_accessibility_score (fa : List FieldAnalysis) : ℚ :=
  if fa.isEmpty then 0
  else ((fa.map fun f => field_accessibility_score f.accessibility).sum : ℚ) / ((fa.length : ℚ) * 3)

/-- Following the spec words (refinement target, not the code): per-field
validation ratio is count/7 and the form-level score is the mean of those
per-field ratios. -/
def spec_form_validation_score (fa : List FieldAnalysis) : ℚ :=
  if fa.isEmpty then 0
  else (fa.map fun f => (field_validation_score f.validations : ℚ) / 7).sum / (fa.length : ℚ)

/-- Following the spec words (refinement target, not the code): per-field
accessibility ratio is count/5 and the form-level score is the mean of those
per-field ratios. -/
def spec_form_accessibility_score (fa : List FieldAnalysis) : ℚ :=
  if fa.isEmpty then 0
  else (fa.map fun f => (field_accessibility_score f.accessibility : ℚ) / 5).sum / (fa.length : ℚ)

/-! ### CTA detection and prominence (`fetch_website_content`, lines 155-196) -/

/-- Action-phrase vocabulary (lines 156-159). -/
def cta_patterns : List (List Char) :=
  ["sign up", "buy", "try", "get", "start", "learn more", "contact",
   "subscribe", "download", "register", "shop", "order", "book"].map String.toList

/-- Primary class vocabulary (line 161). -/
def primary_classes : List (List Char) :=
  ["primary", "cta", "main", "hero", "btn-primary", "button-primary"].map String.toList

/-- Secondary class vocabulary (line 162). -/
def secondary_classes : List (List Char) :=
  ["secondary", "btn-secondary", "button-secondary"].map String.toList

/-- Lowercasing applied to element text, classes and style (lines 166-168). -/
def lowerL (s : List Char) : List Char :=
  s.map Char.toLower

/-- An element qualifies as a CTA when any action phrase occurs in its
lowercased text or class string (line 170). -/
def is_cta (text classes : List Char) : Bool :=
  cta_patterns.any fun p => containsSub p (lowerL text) || containsSub p (lowerL classes)

/-- Prominence score of a CTA (lines 171-183): +3 for a primary class, +2
for a secondary class, +1 for inline color or background styling. -/
def prominence_score (classes style : List Char) : Nat :=
  (if primary_classes.any (fun c => containsSub c (lowerL classes)) then 3 else 0) +
  (if secondary_classes.any (fun c => containsSub c (lowerL classes)) then 2 else 0) +
  (if containsSub ("color".toList) (lowerL style) || containsSub ("background".toList) (lowerL style) then 1 else 0)

/-! ### Score extraction from the generated text (lines 637-669)

Each regex of `score_patterns` is modelled by an anchored matcher tried at
every position left to right, which is exactly `re.search` here: in all
seven patterns the greedy pieces (`\s*`, `\d+`) are followed by characters
they cannot consume, so no backtracking can occur. -/

/-- Anchored case-insensitive literal match, returning the rest of the
input (models `re.IGNORECASE` on a literal regex fragment). -/
def lowerMatches (lit : List Char) (s : List Char) : Option (List Char) :=
  match lit, s with
  | [], rest => some rest
  | _ :: _, [] => none
  | l :: ls, c :: cs => if c.toLower = l then lowerMatches ls cs else none

/-- Whitespace class `\s` of the `re` module (ASCII portion). -/
def isReSpace (c : Char) : Bool :=
  c = ' ' || c = '\t' || c = '\n' || c = '\r' || c = Char.ofNat 11 || c = Char.ofNat 12

/-- Numeric value of a digit run, as Python `int` on the captured group. -/
def digitsValue (ds : List Char) : Nat :=
  ds.foldl (fun a c => a * 10 + (c.toNat - 48)) 0

/-- Greedy `(\d+)`: at least one digit; returns its value and the rest. -/
def takeDigits1 (s : List Char) : Option (Nat × List Char) :=
  let ds := s.takeWhile Char.isDigit
  if ds.isEmpty then none else some (digitsValue ds, s.drop ds.length)

/-- Anchored `UX_HEALTH_SCORE:\s*(\d+)` (line 638). -/
def pat_ux_underscore (s : List Char) : Option Nat := do
  let r ← lowerMatches ("ux_health_score:".toList) s
  let (n, _) ← takeDigits1 (r.dropWhile isReSpace)
  pure n

/-- Anchored `UX Health Score:\s*(\d+)` (line 639). -/
def pat_ux_plain (s : List Char) : Option Nat := do
  let r ← lowerMatches ("ux health score:".toList) s
  let (n, _) ← takeDigits1 (r.dropWhile isReSpace)
  pure n

/-- Anchored `UX Health Score:\s*(\d+)/100` (line 640). -/
def pat_ux_denominator (s : List Char) : Option Nat := do
  let r ← lowerMatches ("ux health score:".toList) s
  let (n, r2) ← takeDigits1 (r.dropWhile isReSpace)
  let _ ← lowerMatches ("/100".toList) r2
  pure n

/-- Anchored `[\n\r](\d+)/100` (line 641). -/
def pat_newline_denominator : List Char → Option Nat
  | [] => none
  | c :: rest =>
    if c = '\n' || c = '\r' then do
      let (n, r2) ← takeDigits1 rest
      let _ ← lowerMatches ("/100".toList) r2
      pure n
    else none

/-- Anchored `score of (\d+)` (line 642). -/
def pat_score_of (s : List Char) : Option Nat := do
  let r ← lowerMatches ("score of ".toList) s
  let (n, _) ← takeDigits1 r
  pure n

/-- Anchored `score: (\d+)` (line 643). -/
def pat_score_colon (s : List Char) : Option Nat := do
  let r ← lowerMatches ("score: ".toList) s
  let (n, _) ← takeDigits1 r
  pure n

/-- Anchored `score is (\d+)` (line 644). -/
def pat_score_is (s : List Char) : Option Nat := do
  let r ← lowerMatches ("score is ".toList) s
  let (n, _) ← takeDigits1 r
  pure n

/-- `re.search`: try the anchored matcher at each position, leftmost first. -/
def re_search (p : List Char → Option Nat) : List Char → Option Nat
  | [] => p []
  | c :: rest =>
    match p (c :: rest) with
    | some n => some n
    | none => re_search p rest

/-- The `extracted_score` loop (lines 647-653): patterns are tried in
order and the first pattern that matches anywhere in the text wins. -/
def extracted_score (response_text : List Char) : Option Nat :=
  (re_search pat_ux_underscore response_text).orElse fun _ =>
  (re_search pat_ux_plain response_text).orElse fun _ =>
  (re_search pat_ux_denominator response_text).orElse fun _ =>
  (re_search pat_newline_denominator response_text).orElse fun _ =>
  (re_search pat_score_of response_text).orElse fun _ =>
  (re_search pat_score_colon response_text).orElse fun _ =>
  re_search pat_score_is response_text

/-- The score stored in `st.session_state.ux_health_score` (lines 655-669).
Python `if extracted_score:` is truthiness: a matched 0 is falsy and takes
the same fallback branch as a failed match. -/
def stored_health_score (response_text : List Char) (site_data : SiteData) : Int :=
  match extracted_score response_text with
  | some s =>
    if s ≠ 0 then
      (if 1 ≤ s ∧ s ≤ 100 then (s : Int) else min 100 (max 1 (s : Int)))
    else (calculate_health_score site_data).1
  | none => (calculate_health_score site_data).1

/-- The `source` tag computed by `display_health_score` (lines 844-854). -/
inductive ScoreSource where
  | ai_analysis : ScoreSource
  | calculated : ScoreSource
  | defaulted : ScoreSource
deriving DecidableEq

/-- `display_health_score` (lines 841-857): session score wins and is tagged
`ai_analysis`; otherwise the calculated score, tagged `calculated`; otherwise
the fixed default 75, tagged `default`. -/
def display_health_score (session_score : Option Int) (site_data : Option SiteData) : Int × ScoreSource :=
  match session_score with
  | some s => (s, ScoreSource.ai_analysis)
  | none =>
    match site_data with
    | some d => ((calculate_health_score d).1, ScoreSource.calculated)
    | none => (75, ScoreSource.defaulted)

/-! ### Insight segmentation and rendering list (lines 671-678 and 886-890) -/

/-- The marker the generated text is split on. -/
def insightMarker : List Char :=
  "**Insight".toList

/-- Lines 671-678: store `'**Insight' + '**Insight'.join(parts[1:])` when the
split yields more than one part; otherwise the analysis is a hard failure
(`st.error("Failed to generate proper analysis format")` followed by
`st.stop()`), and nothing is written into `st.session_state.analysis_data`. -/
def processAnalysis (response_text : List Char) : Option (List Char) :=
  if (splitOnL insightMarker response_text).length > 1 then
    some (insightMarker ++ joinWith insightMarker (splitOnL insightMarker response_text).tail)
  else none

/-- Line 887: the list of issue cards rendered for a stored analysis. -/
def issuesOf (analysis_content : List Char) : List (List Char) :=
  ((splitOnL insightMarker analysis_content).map stripL).filter fun i => !i.isEmpty

/-! ### Issue card rendering (`display_issue_card`, lines 687-822)

The section-extraction loop (lines 693-771) assembles a `sections` record
from the segment text; its result is taken here as an input `secs`, since
the escaping behaviour under scrutiny (lines 773-822) is the same whatever
values that loop produces, and the theorems below quantify over all of
them.  The title pipeline (lines 689-690 and 787) and everything from line
773 on are translated directly. -/

/-- The four parsed sections of one insight segment (lines 693-698). -/
structure Sections where
  observation : List Char
  impact : List Char
  suggested_fix : List (List Char)
  expected_improvement : List Char
deriving DecidableEq

/-- `s.replace('<', '&lt;').replace('>', '&gt;')` (lines 775 and 777): the
first replacement introduces no `>` and the second no `<`, so the two
passes equal this single pass. -/
def escapeAngle : List Char → List Char
  | [] => []
  | c :: r =>
    if c = '<' then '&' :: 'l' :: 't' :: ';' :: escapeAngle r
    else if c = '>' then '&' :: 'g' :: 't' :: ';' :: escapeAngle r
    else c :: escapeAngle r

/-- Lines 773-777: escape observation, impact, expected improvement and
every suggested-fix item. -/
def escapeSections (s : Sections) : Sections :=
  { observation := escapeAngle s.observation
    impact := escapeAngle s.impact
    suggested_fix := s.suggested_fix.map escapeAngle
    expected_improvement := escapeAngle s.expected_improvement }

/-- Lines 779-784: impact level is `high` when `'High'` occurs in the impact
text, else `low` when `'Low'` occurs, else `medium`. -/
def impact_level (impact : List Char) : List Char :=
  if containsSub ("High".toList) impact then "high".toList
  else if containsSub ("Low".toList) impact then "low".toList
  else "medium".toList

/-- Line 690: first line of the segment with `'**'` removed and stripped
(`"Insight"` if there were no lines at all). -/
def issue_title_raw (issue_content : List Char) : List Char :=
  match splitOnL ['\n'] issue_content with
  | [] => "Insight".toList
  | l0 :: _ => stripL (removeSub ("**".toList) l0)

/-- Everything after the first `':'` (Python `title.split(':', 1)[1]`). -/
def afterColon : List Char → List Char
  | [] => []
  | c :: rest => if c = ':' then rest else afterColon rest

/-- Line 787: the displayed card title. -/
def issue_card_title (issue_content : List Char) (index : Nat) : List Char :=
  "Insight ".toList ++ (toString index).toList ++ ": ".toList ++
    (if containsSub [':'] (issue_title_raw issue_content) then
      stripL (afterColon (issue_title_raw issue_content))
     else issue_title_raw issue_content)

/-- Lines 789-797: substitute the fixed placeholder strings for sections
left empty. -/
def fillDefaults (s : Sections) : Sections :=
  { observation := if s.observation.isEmpty then "No specific observation provided".toList else s.observation
    impact := if s.impact.isEmpty then "Impact level not specified".toList else s.impact
    suggested_fix := if s.suggested_fix.isEmpty then ["No specific fixes suggested".toList] else s.suggested_fix
    expected_improvement := if s.expected_improvement.isEmpty then "No specific improvement metrics provided".toList else s.expected_improvement }

/-- Line 814: the joined suggested-fix items. -/
def solution_items (fixes : List (List Char)) : List Char :=
  joinWith [] (fixes.map fun item =>
    ("<div class=\"solution-item\">".toList ++ item ++ "</div>".toList))

/-- Lines 800-822: the rendered card markup (the indentation whitespace of
the f-string is compressed to single newlines; tags, class names, labels
and the content slots are those of the source). -/
def card_html (lvl title : List Char) (s : Sections) : List Char :=
  "<div class=\"issue-card impact-".toList ++ lvl ++ "\">\n<h3>".toList ++ title ++
  "</h3>\n<div class=\"issue-section\">\n<div class=\"section-label\">🔍 Observation</div>\n<div class=\"section-content\">".toList ++
  s.observation ++
  "</div>\n</div>\n<div class=\"issue-section\">\n<div class=\"section-label\">📊 Impact</div>\n<div class=\"section-content\">".toList ++
  s.impact ++
  "</div>\n</div>\n<div class=\"issue-section\">\n<div class=\"section-label\">💡 Suggested Fix</div>\n<div class=\"section-content\">".toList ++
  solution_items s.suggested_fix ++
  "</div>\n</div>\n<div class=\"issue-section\">\n<div class=\"section-label\">📈 Expected Improvement</div>\n<div class=\"section-content\">".toList ++
  s.expected_improvement ++
  "</div>\n</div>\n</div>".toList

/-- `display_issue_card` from line 773 on: escape the parsed sections,
classify the impact level, derive the title, fill the placeholders and
render.  `secs` is the output of the section-extraction loop. -/
def display_issue_card (issue_content : List Char) (index : Nat) (secs : Sections) : List Char :=
  card_html (impact_level (escapeSections secs).impact)
    (issue_card_title issue_content index)
    (fillDefaults (escapeSections secs))

/-! ### Helper lemmas -/

theorem clamp_mem (x : Int) : 0 ≤ max 0 (min 100 x) ∧ max 0 (min 100 x) ≤ 100 :=
  ⟨le_max_left 0 _, max_le (by norm_num) (min_le_left 100 x)⟩

theorem cast_sum_map (fa : List FieldAnalysis) (g : FieldAnalysis → Nat) :
    (((fa.map g).sum : Nat) : ℚ) = (fa.map fun f => ((g f : Nat) : ℚ)).sum := by
  induction fa with
  | nil => simp
  | cons a as ih => simp [ih]

theorem sum_map_div_three (fa : List FieldAnalysis) (g : FieldAnalysis → ℚ) :
    (fa.map fun f => g f / 3).sum = (fa.map g).sum / 3 := by
  induction fa with
  | nil => simp
  | cons a as ih => simp [ih, add_div]

/-! ### The claims -/

/-- C1: for every signal bundle shaped like the extractor's output,
`calculate_health_score` terminates with an integer score in [0, 100]; it is
deterministic (equal bundles give equal results); and for a bundle with zero
forms, zero CTAs and zero paragraphs every ratio term whose denominator
would be zero contributes 0 (the whole engagement sub-score and the
heading-to-paragraph points vanish) while the score stays defined. -/
theorem calculate_health_score_bounded_total :
    (∀ d : SiteData, 0 ≤ (calculate_health_score d).1 ∧ (calculate_health_score d).1 ≤ 100) ∧
    (∀ d₁ d₂ : SiteData, d₁ = d₂ → calculate_health_score d₁ = calculate_health_score d₂) ∧
    (∀ d : SiteData, d.forms.count = 0 → d.ctas.total = 0 → d.content.paragraphs = 0 →
      engagement_score d = 0 ∧ heading_ratio_points d = 0 ∧
      (calculate_health_score d).1 =
        max 0 (min 100 (pyInt ((content_score d : ℚ) * ((35 : ℚ)/100) +
          (accessibility_points d : ℚ) * ((30 : ℚ)/100))))) := by
  refine ⟨fun d => clamp_mem _, fun d₁ d₂ h => by rw [h], fun d hf hc hp => ?_⟩
  have he : engagement_score d = 0 := by
    unfold engagement_score cta_points form_points
    rw [hf, hc]
    norm_num
  refine ⟨he, ?_, ?_⟩
  · unfold heading_ratio_points
    rw [hp]
    norm_num
  · have hcalc : (calculate_health_score d).1 =
        max 0 (min 100 (pyInt ((content_score d : ℚ) * ((35 : ℚ)/100) +
          engagement_score d * ((35 : ℚ)/100) +
          (accessibility_points d : ℚ) * ((30 : ℚ)/100)))) := rfl
    rw [hcalc, he]
    norm_num

/-- C1 witness: the theorem applied to the all-zero bundle. -/
theorem calculate_health_score_bounded_total_witness :
    (0 ≤ (calculate_health_score zeroBundle).1 ∧ (calculate_health_score zeroBundle).1 ≤ 100) ∧
    engagement_score zeroBundle = 0 ∧ heading_ratio_points zeroBundle = 0 :=
  ⟨calculate_health_score_bounded_total.1 zeroBundle,
   (calculate_health_score_bounded_total.2.2 zeroBundle rfl rfl rfl).1,
   (calculate_health_score_bounded_total.2.2 zeroBundle rfl rfl rfl).2.1⟩

/-- A form field with all 7 validation and all 5 accessibility attributes. -/
def allOnField : FieldAnalysis :=
  ⟨⟨true, true, true, true, true, true, true⟩, ⟨true, true, true, true, true⟩⟩

/-- C2 counterexample: for a one-field form whose field has every attribute,
the code computes a form-level validation score of 7/3 and accessibility
score of 5/3 (denominator `len * 3`), while the claimed mean of count/7 and
count/5 ratios would give 1. -/
theorem form_scores_not_sevenths_fifths :
    form_validation_score [allOnField] = 7/3 ∧
    spec_form_validation_score [allOnField] = 1 ∧
    form_validation_score [allOnField] ≠ spec_form_validation_score [allOnField] ∧
    form_accessibility_score [allOnField] = 5/3 ∧
    spec_form_accessibility_score [allOnField] = 1 ∧
    form_accessibility_score [allOnField] ≠ spec_form_accessibility_score [allOnField] := by
  refine ⟨?_, ?_, ?_, ?_, ?_, ?_⟩ <;>
    norm_num [form_validation_score, spec_form_validation_score,
      form_accessibility_score, spec_form_accessibility_score,
      field_validation_score, field_accessibility_score, allOnField]

/-- C2 amended: per-field scores are the raw attribute counts, and the
form-level validation and accessibility scores are each the mean over the
fields of (per-field count)/3 — not /7 and /5 — with 0 for a fieldless
form. -/
theorem form_scores_mean_of_thirds :
    (∀ fa : List FieldAnalysis, fa ≠ [] →
      form_validation_score fa =
        (fa.map fun f => (field_validation_score f.validations : ℚ) / 3).sum / (fa.length : ℚ) ∧
      form_accessibility_score fa =
        (fa.map fun f => (field_accessibility_score f.accessibility : ℚ) / 3).sum / (fa.length : ℚ)) ∧
    form_validation_score [] = 0 ∧ form_accessibility_score [] = 0 := by
  refine ⟨fun fa hfa => ?_, rfl, rfl⟩
  have hemp : fa.isEmpty = false := by
    cases fa with
    | nil => exact absurd rfl hfa
    | cons a as => rfl
  constructor
  · unfold form_validation_score
    rw [hemp]
    simp only [Bool.false_eq_true, if_false]
    rw [cast_sum_map fa (fun f => field_validation_score f.validations),
      sum_map_div_three fa (fun f => (field_validation_score f.validations : ℚ)),
      div_div, mul_comm (3 : ℚ) ((fa.length : Nat) : ℚ)]
  · unfold form_accessibility_score
    rw [hemp]
    simp only [Bool.false_eq_true, if_false]
    rw [cast_sum_map fa (fun f => field_accessibility_score f.accessibility),
      sum_map_div_three fa (fun f => (field_accessibility_score f.accessibility : ℚ)),
      div_div, mul_comm (3 : ℚ) ((fa.length : Nat) : ℚ)]

/-- C2 witness: the amended theorem applied to the one-field form. -/
theorem form_scores_mean_of_thirds_witness :
    form_validation_score [allOnField] =
      ([allOnField].map fun f => (field_validation_score f.validations : ℚ) / 3).sum / (([allOnField].length : Nat) : ℚ) ∧
    form_accessibility_score [allOnField] =
      ([allOnField].map fun f => (field_accessibility_score f.accessibility : ℚ) / 3).sum / (([allOnField].length : Nat) : ℚ) :=
  form_scores_mean_of_thirds.1 [allOnField] (List.cons_ne_nil _ _)

/-- Text that contains the substring `UX_HEALTH_SCORE: 42` and a later
`score of 80`, yet whose leftmost pattern match captures 425. -/
def c3CounterText : List Char :=
  "UX_HEALTH_SCORE: 425\nscore of 80".toList

/-- C3 counterexample: containing `UX_HEALTH_SCORE: 42` and a later
`score of 80` does not force the extracted score to be 42 — here the digit
run continues and the code extracts 425. -/
theorem score_extraction_contains_counterexample :
    containsSub ("UX_HEALTH_SCORE: 42".toList) c3CounterText = true ∧
    containsSub ("score of 80".toList) c3CounterText = true ∧
    extracted_score c3CounterText = some 425 ∧
    extracted_score c3CounterText ≠ some 42 := by
  exact ⟨rfl, rfl, rfl, by decide⟩

/-- C3 amended: the patterns are tried in order, most specific first, and
the first pattern matching anywhere wins: whenever the `UX_HEALTH_SCORE`
pattern matches, its leftmost match value is the extracted score no matter
what free-text phrasings follow; a text containing `UX_HEALTH_SCORE: 42`
yields 42 provided that occurrence is the leftmost match and its digit run
stops at 42. -/
theorem ux_pattern_wins (t : List Char) (n : Nat)
    (h : re_search pat_ux_underscore t = some n) :
    extracted_score t = some n := by
  unfold extracted_score
  rw [h]
  rfl

/-- Representative text containing `UX_HEALTH_SCORE: 42` then `score of 80`. -/
def c3WitnessText : List Char :=
  "UX_HEALTH_SCORE: 42 and later a score of 80".toList

/-- C3 witness: on the representative text the extracted score is 42. -/
theorem ux_pattern_wins_witness :
    re_search pat_ux_underscore c3WitnessText = some 42 ∧
    extracted_score c3WitnessText = some 42 :=
  ⟨rfl, ux_pattern_wins c3WitnessText 42 rfl⟩

/-- Generated text whose only score pattern match captures 150. -/
def bigScoreText : List Char :=
  "UX_HEALTH_SCORE: 150".toList

/-- Generated text whose only score pattern match captures 0. -/
def zeroScoreText : List Char :=
  "UX_HEALTH_SCORE: 0".toList

/-- C4: a matched 150 is indeed clamped to 100, but a matched 0 is never
clamped to 1: Python `if extracted_score:` treats the matched 0 as falsy, so
the code runs the branch whose own debug message reads `No score pattern
matched` and stores the deterministic fallback score instead (0 for the
zero bundle, not 1). -/
theorem matched_zero_score_falls_back :
    extracted_score bigScoreText = some 150 ∧
    stored_health_score bigScoreText zeroBundle = 100 ∧
    extracted_score zeroScoreText = some 0 ∧
    stored_health_score zeroScoreText zeroBundle = (calculate_health_score zeroBundle).1 ∧
    (calculate_health_score zeroBundle).1 = 0 ∧
    stored_health_score zeroScoreText zeroBundle ≠ 1 := by
  have h150 : extracted_score bigScoreText = some 150 := rfl
  have h0 : extracted_score zeroScoreText = some 0 := rfl
  have hcalc : (calculate_health_score zeroBundle).1 = 0 := by
    norm_num [calculate_health_score, content_score, heading_hierarchy_points,
      heading_ratio_points, list_structure_points, engagement_score, cta_points,
      form_points, accessibility_points, zeroBundle, pyInt]
  have hs150 : stored_health_score bigScoreText zeroBundle = 100 := by
    unfold stored_health_score
    rw [h150]
    norm_num
  have hs0 : stored_health_score zeroScoreText zeroBundle = (calculate_health_score zeroBundle).1 := by
    unfold stored_health_score
    rw [h0]
    simp
  exact ⟨h150, hs150, h0, hs0, hcalc, by rw [hs0, hcalc]; norm_num⟩

/-- C5 amended: when no score pattern matches, the stored health score is
the Deterministic Scorer output on the same bundle, but the value displayed
for it is tagged `ai_analysis` (model-reported), not `calculated`:
`display_health_score` tags every session-stored score as `ai_analysis`. -/
theorem fallback_score_uses_calculated_value (t : List Char) (d : SiteData)
    (h : extracted_score t = none) :
    stored_health_score t d = (calculate_health_score d).1 ∧
    display_health_score (some (stored_health_score t d)) none =
      ((calculate_health_score d).1, ScoreSource.ai_analysis) := by
  have hs : stored_health_score t d = (calculate_health_score d).1 := by
    unfold stored_health_score
    rw [h]
  exact ⟨hs, by rw [hs]; rfl⟩

/-- Generated text matching none of the score patterns. -/
def noMatchText : List Char :=
  "The page looks fine overall.".toList

/-- C5 witness: the amended theorem on concrete pattern-free text. -/
theorem fallback_score_uses_calculated_value_witness :
    stored_health_score noMatchText zeroBundle = (calculate_health_score zeroBundle).1 ∧
    display_health_score (some (stored_health_score noMatchText zeroBundle)) none =
      ((calculate_health_score zeroBundle).1, ScoreSource.ai_analysis) :=
  fallback_score_uses_calculated_value noMatchText zeroBundle rfl

/-- Another generated text matching none of the score patterns. -/
def noMatchText2 : List Char :=
  "Great layout with clear navigation.".toList

/-- C5 counterexample: the fallback value is stored, yet the display path
tags it `ai_analysis` rather than a computed-fallback source. -/
theorem fallback_tagged_ai_analysis :
    extracted_score noMatchText2 = none ∧
    stored_health_score noMatchText2 zeroBundle = (calculate_health_score zeroBundle).1 ∧
    (display_health_score (some (stored_health_score noMatchText2 zeroBundle)) none).2 =
      ScoreSource.ai_analysis ∧
    (display_health_score (some (stored_health_score noMatchText2 zeroBundle)) none).2 ≠
      ScoreSource.calculated := by
  have h : extracted_score noMatchText2 = none := rfl
  have hs : stored_health_score noMatchText2 zeroBundle = (calculate_health_score zeroBundle).1 := by
    unfold stored_health_score
    rw [h]
  exact ⟨h, hs, rfl, by decide⟩

/-- C6: when the marker `**Insight` never occurs in the generated text, the
split yields a single segment, the analysis is a hard failure (the error
`Failed to generate proper analysis format` path, modelled as `none`), and
no entry is written to the URL-to-result mapping. -/
theorem no_insight_marker_hard_failure (t : List Char)
    (h : containsSub insightMarker t = false) :
    processAnalysis t = none := by
  unfold processAnalysis
  rw [splitOnL_of_not_contains insightMarker t h]
  norm_num

/-- Generated text with no insight marker. -/
def noInsightText : List Char :=
  "I could not analyze this page.".toList

/-- C6 witness: the theorem on concrete marker-free text. -/
theorem no_insight_marker_hard_failure_witness :
    processAnalysis noInsightText = none :=
  no_insight_marker_hard_failure noInsightText rfl

/-- C7 counterexample: a CTA whose class string matches both the primary and
the secondary vocabulary and that carries inline contrast styling scores
3 + 2 + 1 = 6, outside the claimed [0, 4] range. -/
theorem prominence_score_exceeds_four :
    is_cta ("sign up now".toList) ("btn-primary btn-secondary".toList) = true ∧
    prominence_score ("btn-primary btn-secondary".toList) ("color: red".toList) = 6 ∧
    ¬ prominence_score ("btn-primary btn-secondary".toList) ("color: red".toList) ≤ 4 := by
  exact ⟨by decide, by decide, by decide⟩

/-- C7 amended: the prominence score of a CTA element is an integer in
[0, 6]: +3 for a primary class, +2 for a secondary class (these add when
the class string matches both vocabularies), +1 for inline contrast. -/
theorem prominence_score_le_six (text classes style : List Char)
    (_h : is_cta text classes = true) :
    prominence_score classes style ≤ 6 := by
  unfold prominence_score
  split_ifs <;> norm_num

/-- C7 witness: the amended bound at a concrete CTA. -/
theorem prominence_score_le_six_witness :
    is_cta ("sign up now".toList) ("hero banner".toList) = true ∧
    prominence_score ("hero banner".toList) ([]) ≤ 6 :=
  ⟨by decide, prominence_score_le_six ("sign up now".toList) ("hero banner".toList) [] (by decide)⟩

/-- C8 amended: the rendered insight list has one record per non-empty
stripped segment of the stored text; it is bounded by the number of
`**Insight` marker occurrences in the stored text, not by 3. -/
theorem issues_length_le_marker_count (t s : List Char)
    (h : processAnalysis t = some s) :
    (issuesOf s).length ≤ countSub insightMarker s := by
  unfold processAnalysis at h
  by_cases hlen : (splitOnL insightMarker t).length > 1
  · rw [if_pos hlen] at h
    have hs : s = insightMarker ++ joinWith insightMarker (splitOnL insightMarker t).tail :=
      (Option.some.inj h).symm
    subst hs
    have hmk : insightMarker ≠ [] := by decide
    unfold issuesOf
    rw [splitOnL_append_self insightMarker _ hmk, countSub_append_self insightMarker _ hmk]
    simp only [List.map_cons]
    rw [show stripL ([] : List Char) = [] from rfl]
    simp only [List.filter]
    rw [show (!(List.isEmpty ([] : List Char))) = false from rfl]
    refine le_trans (List.length_filter_le _ _) ?_
    rw [List.length_map, splitOnL_length insightMarker]
  · rw [if_neg hlen] at h
    exact absurd h (by simp)

/-- Raw generated text with two insight markers. -/
def twoInsightRaw : List Char :=
  "intro **Insight 1: a **Insight 2: b".toList

/-- C8 witness: the amended bound on a concrete stored analysis. -/
theorem issues_length_le_marker_count_witness :
    processAnalysis twoInsightRaw = some ("**Insight 1: a **Insight 2: b".toList) ∧
    (issuesOf ("**Insight 1: a **Insight 2: b".toList)).length ≤
      countSub insightMarker ("**Insight 1: a **Insight 2: b".toList) :=
  ⟨by decide, issues_length_le_marker_count twoInsightRaw _ (by decide)⟩

/-- Raw generated text with four insight markers. -/
def fourInsightRaw : List Char :=
  "x **Insight 1: a **Insight 2: b **Insight 3: c **Insight 4: d".toList

/-- C8 counterexample: a stored analysis derived from text with four
markers renders four insight records, more than the claimed maximum of 3. -/
theorem issues_list_four_records :
    (issuesOf ((processAnalysis fourInsightRaw).getD [])).length = 4 ∧
    ¬ (issuesOf ((processAnalysis fourInsightRaw).getD [])).length ≤ 3 := by
  exact ⟨by decide, by decide⟩

/-- A string is angle-free when it contains neither `<` nor `>`. -/
def hasAngle (s : List Char) : Bool :=
  s.any fun c => c == '<' || c == '>'

theorem escapeAngle_hasAngle (s : List Char) : hasAngle (escapeAngle s) = false := by
  induction s with
  | nil => rfl
  | cons c r ih =>
    rw [escapeAngle]
    split_ifs with h1 h2
    · exact ih
    · exact ih
    · have e1 : (c == '<') = false := beq_eq_false_iff_ne.mpr h1
      have e2 : (c == '>') = false := beq_eq_false_iff_ne.mpr h2
      simp only [hasAngle] at ih ⊢
      simp [List.any_cons, e1, e2, ih]

/-- All four section slots of a card are angle-free. -/
def sectionsNoAngles (s : Sections) : Prop :=
  hasAngle s.observation = false ∧ hasAngle s.impact = false ∧
  (∀ fx ∈ s.suggested_fix, hasAngle fx = false) ∧
  hasAngle s.expected_improvement = false

/-- C9 amended: the observation, impact, suggested-fix bullets and expected
improvement rendered into the card markup are escaped — whatever the
section parser produced, the texts placed in those slots contain no raw
angle bracket — but the title slot is rendered without escaping. -/
theorem section_fields_escaped (issue_content : List Char) (index : Nat) (secs : Sections) :
    sectionsNoAngles (fillDefaults (escapeSections secs)) ∧
    display_issue_card issue_content index secs =
      card_html (impact_level (escapeSections secs).impact)
        (issue_card_title issue_content index)
        (fillDefaults (escapeSections secs)) := by
  refine ⟨⟨?_, ?_, ?_, ?_⟩, rfl⟩
  · show hasAngle (if (escapeAngle secs.observation).isEmpty then
        "No specific observation provided".toList else escapeAngle secs.observation) = false
    split_ifs with h
    · decide
    · exact escapeAngle_hasAngle _
  · show hasAngle (if (escapeAngle secs.impact).isEmpty then
        "Impact level not specified".toList else escapeAngle secs.impact) = false
    split_ifs with h
    · decide
    · exact escapeAngle_hasAngle _
  · show ∀ fx ∈ (if (secs.suggested_fix.map escapeAngle).isEmpty then
        ["No specific fixes suggested".toList] else secs.suggested_fix.map escapeAngle),
        hasAngle fx = false
    split_ifs with h
    · intro fx hfx
      rw [List.mem_singleton] at hfx
      subst hfx
      decide
    · intro fx hfx
      obtain ⟨y, _, rfl⟩ := List.mem_map.mp hfx
      exact escapeAngle_hasAngle y
  · show hasAngle (if (escapeAngle secs.expected_improvement).isEmpty then
        "No specific improvement metrics provided".toList
        else escapeAngle secs.expected_improvement) = false
    split_ifs with h
    · decide
    · exact escapeAngle_hasAngle _

/-- An insight segment whose title line carries a script tag. -/
def scriptIssueContent : List Char :=
  " 1: Bad <script>alert(1)</script> here**\nObservation: x".toList

set_option maxRecDepth 40000 in
/-- C9 counterexample: the title is not escaped — the raw `<script>` from
the untrusted segment text reaches the rendered markup verbatim, and no
escaped form of it appears. -/
theorem title_not_escaped :
    containsSub ("<script>".toList) scriptIssueContent = true ∧
    containsSub ("<script>".toList) (display_issue_card scriptIssueContent 1 ⟨[], [], [], []⟩) = true ∧
    containsSub ("&lt;script&gt;".toList) (display_issue_card scriptIssueContent 1 ⟨[], [], [], []⟩) = false := by
  exact ⟨by decide, by decide, by decide⟩

/-- C10: with no analysis-derived session score and no signal bundle,
`display_health_score` shows the fixed default 75 tagged `default`. -/
theorem default_health_score_75 :
    display_health_score none none = (75, ScoreSource.defaulted) := rfl
